import Mathlib

/-!
Verification of the Vokasi RAG assistant (`app.py`): a shallow embedding of
its retrieval-augmented generation pipeline and chat-session handling, with
theorems about prompt composition, context joining, retrieval, transcript
shape, startup diagnostics, and error paths.
-/

namespace VokasiRAG

/-- A document chunk as produced by the (external) vector store; the app only
ever reads its `page_content` field. -/
structure DocumentChunk where
  page_content : String
deriving DecidableEq, Repr

/-- Embedding of `format_docs` (app.py lines 92-93):
`"\n\n".join(doc.page_content for doc in docs)`, i.e. the chunks' texts in
input order with a blank-line separator between consecutive chunks. -/
def format_docs : List DocumentChunk → String
  | [] => ""
  | [doc] => doc.page_content
  | doc :: doc2 :: docs => doc.page_content ++ "\n\n" ++ format_docs (doc2 :: docs)

/-- The opening brace character of a template placeholder. -/
def lbrace : Char := '\x7b'

/-- The closing brace character of a template placeholder. -/
def rbrace : Char := '\x7d'

/-- Embedding of the template literal `prompt_template` (app.py lines 74-86),
including the leading and trailing newlines of the Python triple-quoted
string. -/
def prompt_template : String :=
  "\nAnda adalah asisten AI yang membantu. Jawablah pertanyaan pengguna HANYA berdasarkan konteks yang diberikan di bawah ini.\nJika informasi tidak ditemukan dalam konteks, katakan saja \"Maaf, saya tidak menemukan informasi mengenai hal tersebut di dalam dokumen.\"\nJangan mencoba mengarang jawaban.\n\nKonteks:\n\x7bcontext\x7d\n\nPertanyaan:\n\x7bquestion\x7d\n\nJawaban yang Bermanfaat:\n"

/-- The part of `prompt_template` before the `context` placeholder. -/
def promptPre : String :=
  "\nAnda adalah asisten AI yang membantu. Jawablah pertanyaan pengguna HANYA berdasarkan konteks yang diberikan di bawah ini.\nJika informasi tidak ditemukan dalam konteks, katakan saja \"Maaf, saya tidak menemukan informasi mengenai hal tersebut di dalam dokumen.\"\nJangan mencoba mengarang jawaban.\n\nKonteks:\n"

/-- The part of `prompt_template` between the `context` and `question`
placeholders. -/
def promptMid : String := "\n\nPertanyaan:\n"

/-- The part of `prompt_template` after the `question` placeholder. -/
def promptPost : String := "\n\nJawaban yang Bermanfaat:\n"

/-- One-pass template formatting, modelling `PromptTemplate.format`
(Python `str.format` semantics as used by app.py line 89): scan the template
left to right; at an opening brace, read the variable name up to the closing
brace and emit its value; substituted values are not re-scanned. -/
def formatTemplate (vals : String → String) : List Char → List Char
  | [] => []
  | c :: rest =>
    if c = lbrace then
      (vals (String.mk (rest.takeWhile (fun d => d ≠ rbrace)))).data
        ++ formatTemplate vals ((rest.dropWhile (fun d => d ≠ rbrace)).drop 1)
    else
      c :: formatTemplate vals rest
termination_by l => l.length
decreasing_by
  · have h := List.Sublist.length_le
      (List.dropWhile_sublist (l := rest) (fun d => decide (d ≠ rbrace)))
    simp only [List.length_drop, List.length_cons]
    omega
  · simp only [List.length_cons]
    omega

/-- Embedding of `prompt` applied to its two input variables
(app.py line 89): render `prompt_template` with `context` and `question`
substituted. -/
def composePrompt (context question : String) : String :=
  String.mk (formatTemplate
    (fun name => if name = "context" then context
                 else if name = "question" then question else "")
    prompt_template.data)

/-- One chat turn, as stored in `st.session_state.messages`
(a dict with `role` and `content`). -/
structure ChatTurn where
  role : String
  content : String
deriving DecidableEq, Repr

/-- The user turn appended by the chat input handler (app.py line 124). -/
def userTurn (q : String) : ChatTurn := ⟨"user", q⟩

/-- The assistant turn appended by the chat input handler (app.py line 136). -/
def assistantTurn (r : String) : ChatTurn := ⟨"assistant", r⟩

/-- Outcome of one run of the chat input handler. -/
structure SubmitResult where
  messages : List ChatTurn
  answer : Option String
  displayedError : Option String
deriving DecidableEq, Repr

/-- Embedding of the chat input handler (app.py lines 122-136): append the
user turn, invoke the RAG chain on the raw user prompt, and append the
assistant turn only when the invocation returns; if the chain raises, the
exception surfaces and the assistant append never runs. -/
def submit (pipeline : String → Except String String)
    (messages : List ChatTurn) (user_prompt : String) : SubmitResult :=
  let afterUser := messages ++ [userTurn user_prompt]
  match pipeline user_prompt with
  | Except.ok response =>
      ⟨afterUser ++ [assistantTurn response], some response, none⟩
  | Except.error e => ⟨afterUser, none, some e⟩

/-- Transcript after a sequence of chat submissions starting from the empty
session (app.py lines 113-114 initialise `messages` to `[]`). -/
def runSession (pipeline : String → Except String String)
    (qs : List String) : List ChatTurn :=
  qs.foldl (fun msgs q => (submit pipeline msgs q).messages) []

/-- Embedding of the sidebar reset action (app.py lines 106-110):
`st.session_state.messages = []`. -/
def resetConversation (_ : List ChatTurn) : List ChatTurn := []

/-- The error shown when the API key is missing (app.py line 16). -/
def apiKeyError : String :=
  "Kunci API Google AI tidak ditemukan. Harap atur di file secrets.toml."

/-- The info text shown under the missing-key error (app.py lines 17-23),
explaining how to supply the credential. -/
def apiKeyInfo : String :=
  "\n        Untuk mengatur kunci API Anda:\n\n        1. Buat file bernama `.streamlit/secrets.toml` di direktori proyek Anda.\n\n        2. Tambahkan baris berikut ke dalam file tersebut:\n\n           `GOOGLE_API_KEY = \"API_KEY_ANDA\"`\n\n        3. Ganti `\"API_KEY_ANDA\"` dengan kunci API Google AI Anda yang sebenarnya.\n    "

/-- The error shown when component initialisation raises (app.py line 62). -/
def initError (e : String) : String :=
  "Terjadi kesalahan saat inisialisasi: " ++ e

/-- Outcome of app startup (app.py lines 13-68): whether the RAG pipeline got
constructed, whether the script halted (`st.stop`), the diagnostics shown,
and the session transcript (never touched on the halt paths, and initialised
empty otherwise). -/
structure StartupOutcome where
  pipelineConstructed : Bool
  halted : Bool
  diagnostics : List String
  messages : List ChatTurn
deriving DecidableEq, Repr

/-- Embedding of startup (app.py lines 13-68): a missing `GOOGLE_API_KEY`
secret raises `KeyError`, which shows the error and the how-to-supply info
and stops the script before the pipeline or the chat state exist; with a key
present, `load_components` either succeeds or shows one initialisation error
and stops. -/
def startup (googleApiKey : Option String) (componentsOk : Bool)
    (initException : String) : StartupOutcome :=
  match googleApiKey with
  | none => ⟨false, true, [apiKeyError, apiKeyInfo], []⟩
  | some _ =>
      if componentsOk then ⟨true, false, [], []⟩
      else ⟨false, true, [initError initException], []⟩

/-- Whether `needle` occurs as a contiguous subsequence of `hay`. -/
def containsSeq (needle : List Char) : List Char → Bool
  | [] => needle.isEmpty
  | c :: t => needle.isPrefixOf (c :: t) || containsSeq needle t

/-- Whether a diagnostic message carries the how-to-supply-the-credential
instructions (the numbered setup steps of app.py lines 17-23). -/
def explainsHowToSupplyKey (m : String) : Bool :=
  containsSeq "Untuk mengatur kunci API Anda".data m.data

/-- The retrieval depth configured at app.py line 58
(`search_kwargs =` with `k` set to 3). -/
def retrievalK : Nat := 3

/-- Modelled from the spec: the Retriever wraps the external, pre-built
Chroma vector index (app.py lines 52-58 only configure it), whose lookup code
is not part of this repository. Per the spec it returns the top-K (K = 3)
chunks ordered by descending similarity under the index's native metric,
with no re-ranking, filtering, or deduplication. -/
def retrieve (sim : String → DocumentChunk → ℚ) (index : List DocumentChunk)
    (query : String) : List DocumentChunk :=
  (index.insertionSort (fun a b => sim query b ≤ sim query a)).take retrievalK

/-- A transcript strictly alternates roles starting with a user turn: the
turn at every even position is a user turn and at every odd position an
assistant turn. -/
def Alternating (l : List ChatTurn) : Prop :=
  ∀ (i : Nat) (h : i < l.length),
    (l[i]).role = if i % 2 = 0 then "user" else "assistant"

/-- The transcript of question/answer pairs for questions `qs` answered by
`f`. -/
def mkTranscript (f : String → String) : List String → List ChatTurn
  | [] => []
  | q :: qs => userTurn q :: assistantTurn (f q) :: mkTranscript f qs

/-- Scanning for the closing brace over `name ++ rbrace :: b` collects exactly
`name` when `name` itself has no closing brace. -/
lemma takeWhile_until_rbrace (name b : List Char) (hn : rbrace ∉ name) :
    (name ++ rbrace :: b).takeWhile (fun d => d ≠ rbrace) = name := by
  induction name with
  | nil => simp
  | cons c cs ih =>
    simp only [List.mem_cons, not_or] at hn
    rw [List.cons_append, List.takeWhile_cons_of_pos (by simpa using Ne.symm hn.1),
      ih hn.2]

/-- Dropping up to the closing brace over `name ++ rbrace :: b` leaves
`rbrace :: b` when `name` itself has no closing brace. -/
lemma dropWhile_until_rbrace (name b : List Char) (hn : rbrace ∉ name) :
    (name ++ rbrace :: b).dropWhile (fun d => d ≠ rbrace) = rbrace :: b := by
  induction name with
  | nil => simp
  | cons c cs ih =>
    simp only [List.mem_cons, not_or] at hn
    rw [List.cons_append, List.dropWhile_cons_of_pos (by simpa using Ne.symm hn.1),
      ih hn.2]

/-- Template text with no opening brace is emitted unchanged. -/
lemma formatTemplate_of_no_lbrace (vals : String → String) (l : List Char)
    (hl : lbrace ∉ l) : formatTemplate vals l = l := by
  induction l with
  | nil => simp [formatTemplate]
  | cons c cs ih =>
    simp only [List.mem_cons, not_or] at hl
    rw [formatTemplate]
    simp [Ne.symm hl.1, ih hl.2]

/-- One substitution step: literal text `a` (no opening brace), then a
placeholder for `name` (no closing brace inside), emits `a` then the
variable's value, and goes on formatting the remainder. -/
lemma formatTemplate_var (vals : String → String) (a name b : List Char)
    (ha : lbrace ∉ a) (hn : rbrace ∉ name) :
    formatTemplate vals (a ++ lbrace :: (name ++ rbrace :: b))
      = a ++ (vals (String.mk name)).data ++ formatTemplate vals b := by
  induction a with
  | nil =>
    rw [List.nil_append, formatTemplate]
    rw [takeWhile_until_rbrace name b hn, dropWhile_until_rbrace name b hn]
    simp
  | cons c cs ih =>
    simp only [List.mem_cons, not_or] at ha
    rw [List.cons_append, formatTemplate]
    simp [Ne.symm ha.1, ih ha.2]

set_option maxRecDepth 10000 in
/-- The template literal splits as fixed text around its two placeholders. -/
lemma prompt_template_decomp :
    prompt_template.data
      = promptPre.data ++ lbrace :: ("context".data ++ rbrace ::
          (promptMid.data ++ lbrace :: ("question".data ++ rbrace ::
            promptPost.data))) := by
  rfl

set_option maxRecDepth 10000 in
/-- Rendering the app's prompt template substitutes the context and the
question into the fixed surrounding text. -/
theorem composePrompt_eq (context question : String) :
    composePrompt context question
      = promptPre ++ context ++ promptMid ++ question ++ promptPost := by
  apply String.ext
  show formatTemplate _ prompt_template.data = _
  rw [prompt_template_decomp,
    formatTemplate_var _ _ _ _ (by decide) (by decide),
    formatTemplate_var _ _ _ _ (by decide) (by decide),
    formatTemplate_of_no_lbrace _ _ (by decide)]
  have h1 : String.mk "context".data = "context" := rfl
  have h2 : String.mk "question".data = "question" := rfl
  rw [h1, h2]
  simp [String.data_append, List.append_assoc]

/-- Each chunk's text occurs verbatim inside the joined context. -/
lemma infix_data_format_docs (d : DocumentChunk) (docs : List DocumentChunk)
    (h : d ∈ docs) : d.page_content.data <:+: (format_docs docs).data := by
  induction docs with
  | nil => cases h
  | cons d0 rest ih =>
    cases rest with
    | nil =>
      have hd : d = d0 := by simpa using h
      rw [hd]
      exact List.infix_rfl
    | cons d1 rest1 =>
      rcases List.mem_cons.mp h with h0 | hmem
      · rw [h0]
        show d0.page_content.data <:+:
          (d0.page_content ++ "\n\n" ++ format_docs (d1 :: rest1)).data
        simp only [String.data_append, List.append_assoc]
        exact (List.prefix_append _ _).isInfix
      · refine (ih hmem).trans ?_
        refine ⟨(d0.page_content ++ "\n\n").data, [], ?_⟩
        simp [format_docs, String.data_append, List.append_assoc]

/-- The empty transcript alternates. -/
lemma alternating_nil : Alternating [] := by
  intro i h
  simp at h

/-- Prepending one user/assistant pair preserves alternation. -/
lemma alternating_cons2 (q r : String) (l : List ChatTurn) (h : Alternating l) :
    Alternating (userTurn q :: assistantTurn r :: l) := by
  intro i hi
  cases i with
  | zero => rfl
  | succ j =>
    cases j with
    | zero => rfl
    | succ i =>
      have hi' : i < l.length := by simpa using hi
      have hparity : (i + 1 + 1) % 2 = i % 2 := Nat.add_mod_right i 2
      simpa [hparity] using h i hi'

/-- Question/answer-pair transcripts alternate. -/
lemma alternating_mkTranscript (f : String → String) (qs : List String) :
    Alternating (mkTranscript f qs) := by
  induction qs with
  | nil => exact alternating_nil
  | cons q qs ih => exact alternating_cons2 q (f q) _ ih

/-- A question/answer-pair transcript holds two turns per question. -/
lemma length_mkTranscript (f : String → String) (qs : List String) :
    (mkTranscript f qs).length = 2 * qs.length := by
  induction qs with
  | nil => rfl
  | cons q qs ih =>
    simp only [mkTranscript, List.length_cons, ih]
    omega

/-- Folding successful submissions over any starting transcript appends the
question/answer pairs in order. -/
lemma foldl_submit_ok (pipeline : String → Except String String)
    (f : String → String) (qs : List String)
    (h : ∀ q ∈ qs, pipeline q = Except.ok (f q)) (s : List ChatTurn) :
    qs.foldl (fun msgs q => (submit pipeline msgs q).messages) s
      = s ++ mkTranscript f qs := by
  induction qs generalizing s with
  | nil => simp [mkTranscript]
  | cons q qs ih =>
    have hq := h q (List.mem_cons_self q qs)
    have step : (submit pipeline s q).messages
        = s ++ [userTurn q, assistantTurn (f q)] := by
      simp [submit, hq]
    rw [List.foldl_cons, step, ih (fun p hp => h p (List.mem_cons_of_mem q hp))]
    simp [mkTranscript]

/-- C1: for every question string and every sequence of retrieved chunks, the
composed prompt handed to the Completion Provider contains the question
verbatim and contains each retrieved chunk's text verbatim. -/
theorem claim1_prompt_contains_question_and_chunks
    (docs : List DocumentChunk) (question : String) :
    question.data <:+: (composePrompt (format_docs docs) question).data ∧
    ∀ d ∈ docs,
      d.page_content.data <:+: (composePrompt (format_docs docs) question).data := by
  rw [composePrompt_eq]
  constructor
  · refine ⟨(promptPre ++ format_docs docs ++ promptMid).data, promptPost.data, ?_⟩
    simp [String.data_append, List.append_assoc]
  · intro d hd
    refine (infix_data_format_docs d docs hd).trans ?_
    refine ⟨promptPre.data, (promptMid ++ question ++ promptPost).data, ?_⟩
    simp [String.data_append, List.append_assoc]

/-- C1 witness: a retrieved chunk's text occurs verbatim in the concrete
composed prompt. -/
theorem claim1_witness :
    (DocumentChunk.mk "isi bab satu").page_content.data
      <:+: (composePrompt
        (format_docs [⟨"isi bab satu"⟩, ⟨"isi bab dua"⟩]) "apa isi bab itu?").data :=
  (claim1_prompt_contains_question_and_chunks
    [⟨"isi bab satu"⟩, ⟨"isi bab dua"⟩] "apa isi bab itu?").2
    ⟨"isi bab satu"⟩ (List.mem_cons_self _ _)

/-- C2: joining document chunks is order-preserving concatenation of each
chunk's text with exactly one blank line (two newline characters) between
consecutive chunks; in particular `join [A, B] = A ++ "\n\n" ++ B`. -/
theorem claim2_join_blank_line_separator (A B : DocumentChunk)
    (docs : List DocumentChunk) :
    format_docs [] = "" ∧
    format_docs [A] = A.page_content ∧
    format_docs (A :: B :: docs)
      = A.page_content ++ "\n\n" ++ format_docs (B :: docs) ∧
    format_docs [A, B] = A.page_content ++ "\n\n" ++ B.page_content :=
  ⟨rfl, rfl, rfl, rfl⟩

/-- C3: retrieval returns at most K = 3 chunks, exactly K when the index
holds at least K entries, ordered by descending similarity score, and is a
prefix of a sorted permutation of the index (no re-ranking, filtering or
deduplication). -/
theorem claim3_retrieve_topk (sim : String → DocumentChunk → ℚ)
    (index : List DocumentChunk) (query : String) :
    (retrieve sim index query).length = min retrievalK index.length ∧
    (retrieve sim index query).length ≤ retrievalK ∧
    (retrievalK ≤ index.length →
      (retrieve sim index query).length = retrievalK) ∧
    List.Sorted (fun a b => sim query b ≤ sim query a)
      (retrieve sim index query) ∧
    retrieve sim index query
      <+: index.insertionSort (fun a b => sim query b ≤ sim query a) ∧
    (index.insertionSort (fun a b => sim query b ≤ sim query a)).Perm index := by
  haveI : IsTotal DocumentChunk (fun a b => sim query b ≤ sim query a) :=
    ⟨fun a b => le_total (sim query b) (sim query a)⟩
  haveI : IsTrans DocumentChunk (fun a b => sim query b ≤ sim query a) :=
    ⟨fun a b c hab hbc => le_trans hbc hab⟩
  have hlen : (retrieve sim index query).length = min retrievalK index.length := by
    simp [retrieve, List.length_take, List.length_insertionSort]
  refine ⟨hlen, ?_, ?_, ?_, ?_, ?_⟩
  · rw [hlen]; exact Nat.min_le_left _ _
  · intro hk; rw [hlen]; exact Nat.min_eq_left hk
  · exact List.Pairwise.sublist (List.take_sublist _ _)
      (List.sorted_insertionSort _ _)
  · exact List.take_prefix _ _
  · exact List.perm_insertionSort _ _

/-- C3 witness: on a four-entry index, retrieval returns exactly K = 3
chunks. -/
theorem claim3_witness :
    retrievalK ≤ ([⟨"a"⟩, ⟨"b"⟩, ⟨"c"⟩, ⟨"d"⟩] : List DocumentChunk).length ∧
    (retrieve (fun _ _ => 0) [⟨"a"⟩, ⟨"b"⟩, ⟨"c"⟩, ⟨"d"⟩] "tanya").length
      = retrievalK :=
  ⟨by decide,
    (claim3_retrieve_topk (fun _ _ => 0) [⟨"a"⟩, ⟨"b"⟩, ⟨"c"⟩, ⟨"d"⟩]
      "tanya").2.2.1 (by decide)⟩

/-- C4: after N successful submit calls starting from an empty session, the
transcript holds exactly 2N turns, strictly alternating user/assistant
starting with a user turn; each turn is appended with its fully computed
content. -/
theorem claim4_transcript_alternation (pipeline : String → Except String String)
    (f : String → String) (qs : List String)
    (h : ∀ q ∈ qs, pipeline q = Except.ok (f q)) :
    (runSession pipeline qs).length = 2 * qs.length ∧
    Alternating (runSession pipeline qs) := by
  have hr : runSession pipeline qs = mkTranscript f qs := by
    rw [runSession, foldl_submit_ok pipeline f qs h []]
    simp
  rw [hr]
  exact ⟨length_mkTranscript f qs, alternating_mkTranscript f qs⟩

/-- C4 witness: two successful submissions yield a four-turn alternating
transcript. -/
theorem claim4_witness :
    (runSession (fun q => Except.ok ("jawaban untuk " ++ q))
      ["satu", "dua"]).length = 2 * 2 ∧
    Alternating (runSession (fun q => Except.ok ("jawaban untuk " ++ q))
      ["satu", "dua"]) :=
  claim4_transcript_alternation (fun q => Except.ok ("jawaban untuk " ++ q))
    (fun q => "jawaban untuk " ++ q) ["satu", "dua"] (fun _ _ => rfl)

set_option maxRecDepth 40000 in
/-- C5: prompt composition renders one fixed template with exactly two
substitution points (context and question), and the template's instructions
direct the model to answer only from the supplied context and to reply with
the fixed refusal phrase, not a fabricated answer, when the context lacks
the answer. -/
theorem claim5_template_two_slots_and_instructions :
    (∀ context question : String,
      composePrompt context question
        = promptPre ++ context ++ promptMid ++ question ++ promptPost) ∧
    prompt_template
      = promptPre ++ "\x7bcontext\x7d" ++ promptMid ++ "\x7bquestion\x7d"
          ++ promptPost ∧
    prompt_template.data.count lbrace = 2 ∧
    prompt_template.data.count rbrace = 2 ∧
    "HANYA berdasarkan konteks yang diberikan".data <:+: prompt_template.data ∧
    "Maaf, saya tidak menemukan informasi mengenai hal tersebut di dalam dokumen.".data
      <:+: prompt_template.data ∧
    "Jangan mencoba mengarang jawaban.".data <:+: prompt_template.data :=
  ⟨composePrompt_eq, by decide, by decide, by decide, by decide, by decide,
    by decide⟩

set_option maxRecDepth 40000 in
/-- C6: with the API credential absent at startup, the pipeline is never
constructed, the script halts before any query, the transcript is never
mutated, and exactly one of the shown diagnostics carries the instructions
for supplying the credential. -/
theorem claim6_missing_credential_halts (componentsOk : Bool)
    (initException : String) :
    (startup none componentsOk initException).pipelineConstructed = false ∧
    (startup none componentsOk initException).halted = true ∧
    (startup none componentsOk initException).messages = [] ∧
    (startup none componentsOk initException).diagnostics.countP
      explainsHowToSupplyKey = 1 :=
  ⟨rfl, rfl, rfl, by
    rw [show (startup none componentsOk initException).diagnostics
      = [apiKeyError, apiKeyInfo] from rfl]
    decide⟩

/-- C7: when the pipeline raises during a query, the failure is fatal for
that query: no answer is produced, the error surfaces in place of an answer
turn, and no assistant turn is appended to the transcript. -/
theorem claim7_pipeline_error_no_assistant_turn
    (pipeline : String → Except String String) (messages : List ChatTurn)
    (q e : String) (h : pipeline q = Except.error e) :
    (submit pipeline messages q).messages = messages ++ [userTurn q] ∧
    (submit pipeline messages q).answer = none ∧
    (submit pipeline messages q).displayedError = some e ∧
    ∀ t ∈ (submit pipeline messages q).messages,
      t.role = "assistant" → t ∈ messages := by
  have hm : (submit pipeline messages q).messages = messages ++ [userTurn q] := by
    simp [submit, h]
  refine ⟨hm, by simp [submit, h], by simp [submit, h], ?_⟩
  intro t ht hrole
  rw [hm] at ht
  rcases List.mem_append.mp ht with h1 | h2
  · exact h1
  · have ht' : t = userTurn q := by simpa using h2
    rw [ht'] at hrole
    simp [userTurn] at hrole

/-- C7 witness: a failing pipeline call yields no answer, a surfaced error,
and no assistant turn. -/
theorem claim7_witness :
    (submit (fun _ => Except.error "kuota habis") [] "halo").messages
      = [] ++ [userTurn "halo"] ∧
    (submit (fun _ => Except.error "kuota habis") [] "halo").answer = none ∧
    (submit (fun _ => Except.error "kuota habis") [] "halo").displayedError
      = some "kuota habis" := by
  have h := claim7_pipeline_error_no_assistant_turn
    (fun _ => Except.error "kuota habis") [] "halo" "kuota habis" rfl
  exact ⟨h.1, h.2.1, h.2.2.1⟩

/-- C8: reset leaves the session empty: afterwards the transcript contains
zero turns, whatever it held before. -/
theorem claim8_reset_empties_transcript (messages : List ChatTurn) :
    resetConversation messages = [] ∧
    (resetConversation messages).length = 0 :=
  ⟨rfl, rfl⟩

/-- C9: with an empty vector index, retrieval returns the empty sequence,
joining it yields the empty string, and the composer still renders the fixed
template with an empty context block and the question substituted. -/
theorem claim9_empty_index_valid_prompt (sim : String → DocumentChunk → ℚ)
    (question : String) :
    retrieve sim [] question = [] ∧
    format_docs [] = "" ∧
    composePrompt (format_docs (retrieve sim [] question)) question
      = promptPre ++ promptMid ++ question ++ promptPost := by
  refine ⟨rfl, rfl, ?_⟩
  rw [show format_docs (retrieve sim [] question) = "" from rfl,
    composePrompt_eq]
  apply String.ext
  simp [String.data_append]

/-- C10: submit appends the user turn before invoking the pipeline and does
not roll it back on failure: after a raising invocation the transcript is
the prior transcript plus exactly one trailing unpaired user turn. -/
theorem claim10_user_turn_not_rolled_back
    (pipeline : String → Except String String) (messages : List ChatTurn)
    (q e : String) (h : pipeline q = Except.error e) :
    (submit pipeline messages q).messages = messages ++ [userTurn q] := by
  simp [submit, h]

/-- C10 witness: on a concrete failing call, the prior transcript gains
exactly one trailing user turn. -/
theorem claim10_witness :
    (submit (fun _ => Except.error "jaringan putus")
      [userTurn "a", assistantTurn "b"] "gagal").messages
      = [userTurn "a", assistantTurn "b"] ++ [userTurn "gagal"] :=
  claim10_user_turn_not_rolled_back (fun _ => Except.error "jaringan putus")
    [userTurn "a", assistantTurn "b"] "gagal" "jaringan putus" rfl

end VokasiRAG
